import Mathlib

/-!
Shallow embedding of the nyaa-go library (package `nyaa`, file `nyaa.go`):
a scraper that builds a search URL, fetches a results page over HTTP and
extracts `Media` records from the rows of the results table.

Pure Go functions become Lean functions; the HTTP transport and the
HTML parser (external collaborators) become function parameters; Go's
`(value, error)` returns become `Except String`; machine integers become
`Nat`/`Int` with explicit reduction modulo `2 ^ 64` where the code converts
to `uint`/`uint64` (the standard 64-bit platform).  Error strings are kept
verbatim from the source.
-/

/-! ## Machine-integer conversions -/

/-- Go's `uint(i)` / `uint64(i)` conversion from a (64-bit) signed integer:
two's-complement reduction modulo `2 ^ 64`. -/
def goUint (i : Int) : Nat := (i % ((2 : Int) ^ 64)).toNat

/-! ## strconv.Atoi -/

/-- Decimal value of a digit character. -/
def digitVal (c : Char) : Nat := c.toNat - 48

/-- Big-endian accumulation of decimal digits, as `strconv` performs it. -/
def digitsFold (ds : List Char) : Nat := ds.foldl (fun a c => a * 10 + digitVal c) 0

/-- `ParseInt` picks off a leading sign: is it a minus? -/
def atoiNeg (cs : List Char) : Bool := cs.head? == some '-'

/-- `ParseInt` picks off a leading sign: the remaining digit characters. -/
def atoiDigits (cs : List Char) : List Char :=
  if cs.head? == some '-' || cs.head? == some '+' then cs.tail else cs

/-- The signed value before the range check. -/
def atoiVal (cs : List Char) : Int :=
  if atoiNeg cs then -(digitsFold (atoiDigits cs) : Nat) else (digitsFold (atoiDigits cs) : Nat)

/-- Embedding of Go `strconv.Atoi` (= `ParseInt(s, 10, 0)` on a 64-bit
platform): optional sign, one or more decimal digits, nothing else;
values outside the `int64` range are a range error.  (Go quotes the
offending string with `strconv.Quote`; we reproduce the plain-ASCII case.) -/
def goAtoi (s : String) : Except String Int :=
  if (atoiDigits s.toList).isEmpty || !((atoiDigits s.toList).all Char.isDigit) then
    .error ("strconv.Atoi: parsing \"" ++ s ++ "\": invalid syntax")
  else if atoiVal s.toList < -(2 ^ 63) || (2 ^ 63 - 1 : Int) < atoiVal s.toList then
    .error ("strconv.Atoi: parsing \"" ++ s ++ "\": value out of range")
  else
    .ok (atoiVal s.toList)

/-! ## strings.TrimPrefix -/

/-- Embedding of Go `strings.TrimPrefix` via character lists (Go works on
bytes; the prefixes used here are ASCII, where the two agree). -/
def trimPre (s pre : String) : String :=
  if pre.toList.isPrefixOf s.toList then String.mk (s.toList.drop pre.toList.length) else s

/-! ## docker/go-units FromHumanSize

`nyaa.go` parses the size cell with `units.FromHumanSize`, i.e.
`parseSize(s, decimalMap)` of the `docker/go-units` dependency: the input
must match `^(\d+(\.\d+)*) ?([kKmMgGtTpP])?[iI]?[bB]?$`, the numeric part
goes through `strconv.ParseFloat` (which rejects a second decimal point)
and the unit letter is looked up in the DECIMAL map (k/m/g/t/p ↦ powers of
1000) — the binary `i` infix is accepted by the pattern but ignored by the
lookup, so "GiB" is still decimal.  We model the float arithmetic exactly
(rationally) and truncate as Go's `int64(float64)` does; the two agree
whenever the product is exactly representable (in particular on every
input appearing in a theorem below). -/

/-- Scanner state for the `parseSize` pattern.  `phase`:
0 start, 1 integer digits, 2 just after a dot, 3 fraction digits,
4 after the optional space, 5 after the unit letter, 6 after `i`,
7 after `b`, 9 reject. -/
structure SizeScan where
  phase : Nat
  num : List Char
  intAcc : Nat
  fracAcc : Nat
  fracLen : Nat
  dots : Nat
  mul : Nat
deriving Repr

def sizeUnitVal (c : Char) : Option Nat :=
  if c == 'k' || c == 'K' then some 1000
  else if c == 'm' || c == 'M' then some (1000 ^ 2)
  else if c == 'g' || c == 'G' then some (1000 ^ 3)
  else if c == 't' || c == 'T' then some (1000 ^ 4)
  else if c == 'p' || c == 'P' then some (1000 ^ 5)
  else none

def sizeScanStep (st : SizeScan) (c : Char) : SizeScan :=
  if st.phase == 0 || st.phase == 1 then
    -- reading the integer part (phase 0: no digit read yet)
    if c.isDigit then
      { st with
        phase := 1
        num := st.num ++ [c]
        intAcc := st.intAcc * 10 + digitVal c }
    else if st.phase == 1 then
      if c == '.' then { st with phase := 2, num := st.num ++ [c], dots := st.dots + 1 }
      else if c == ' ' then { st with phase := 4 }
      else match sizeUnitVal c with
        | some m => { st with phase := 5, mul := m }
        | none =>
          if c == 'i' || c == 'I' then { st with phase := 6 }
          else if c == 'b' || c == 'B' then { st with phase := 7 }
          else { st with phase := 9 }
    else { st with phase := 9 }
  else if st.phase == 2 then
    -- a dot must be followed by at least one digit
    if c.isDigit then
      { st with
        phase := 3
        num := st.num ++ [c]
        fracAcc := st.fracAcc * 10 + digitVal c
        fracLen := st.fracLen + 1 }
    else { st with phase := 9 }
  else if st.phase == 3 then
    if c.isDigit then
      { st with
        num := st.num ++ [c]
        fracAcc := st.fracAcc * 10 + digitVal c
        fracLen := st.fracLen + 1 }
    else if c == '.' then { st with phase := 2, num := st.num ++ [c], dots := st.dots + 1 }
    else if c == ' ' then { st with phase := 4 }
    else match sizeUnitVal c with
      | some m => { st with phase := 5, mul := m }
      | none =>
        if c == 'i' || c == 'I' then { st with phase := 6 }
        else if c == 'b' || c == 'B' then { st with phase := 7 }
        else { st with phase := 9 }
  else if st.phase == 4 then
    match sizeUnitVal c with
    | some m => { st with phase := 5, mul := m }
    | none =>
      if c == 'i' || c == 'I' then { st with phase := 6 }
      else if c == 'b' || c == 'B' then { st with phase := 7 }
      else { st with phase := 9 }
  else if st.phase == 5 then
    if c == 'i' || c == 'I' then { st with phase := 6 }
    else if c == 'b' || c == 'B' then { st with phase := 7 }
    else { st with phase := 9 }
  else if st.phase == 6 then
    if c == 'b' || c == 'B' then { st with phase := 7 }
    else { st with phase := 9 }
  else { st with phase := 9 }

/-- Embedding of `units.FromHumanSize` (see the section comment). -/
def fromHumanSize (s : String) : Except String Int :=
  let st := s.toList.foldl sizeScanStep
    { phase := 0, num := [], intAcc := 0, fracAcc := 0, fracLen := 0, dots := 0, mul := 1 }
  -- accepting states: a digit has been read and no stray character followed
  if st.phase == 1 || st.phase == 3 || st.phase == 4 || st.phase == 5 ||
      st.phase == 6 || st.phase == 7 then
    if st.dots ≥ 2 then
      .error ("strconv.ParseFloat: parsing \"" ++ String.mk st.num ++ "\": invalid syntax")
    else
      .ok (((st.intAcc * 10 ^ st.fracLen + st.fracAcc) * st.mul / 10 ^ st.fracLen : Nat) : Int)
  else
    .error ("invalid size: '" ++ s ++ "'")

/-! ## HTML document model and goquery selectors

The document tree produced by the external HTML parser (`goquery` over
`golang.org/x/net/html`).  Children are in document order; `FirstChild`
and `LastChild` are the ends of the child list. -/

inductive HNode : Type where
  | text (data : String)
  | elem (tag : String) (attrs : List (String × String)) (children : List HNode)

def firstChild (n : HNode) : Option HNode :=
  match n with
  | .text _ => none
  | .elem _ _ cs => cs.head?

def lastChild (n : HNode) : Option HNode :=
  match n with
  | .text _ => none
  | .elem _ _ cs => cs.getLast?

/-- Embedding of `getAttributeValueByKey` (nyaa.go): first attribute with
the given key. -/
def getAttributeValueByKey (n : HNode) (key : String) : Option String :=
  match n with
  | .text _ => none
  | .elem _ attrs _ => (attrs.find? (fun a => a.1 == key)).map (fun a => a.2)

/-- Split a character list at whitespace (the pieces, possibly empty). -/
def splitWS (cs : List Char) (cur : List Char) : List String :=
  match cs with
  | [] => [String.mk cur.reverse]
  | c :: t =>
    if c == ' ' || c == '\t' || c == '\n' || c == '\r' then
      String.mk cur.reverse :: splitWS t []
    else splitWS t (c :: cur)

/-- CSS class membership (`[class~=c]`): the `class` attribute split on
whitespace contains the word. -/
def hasClass (n : HNode) (c : String) : Bool :=
  match getAttributeValueByKey n "class" with
  | some v => ((splitWS v.toList []).filter (fun t => t != "")).contains c
  | none => false

def isTag (n : HNode) (t : String) : Bool :=
  match n with
  | .elem tag _ _ => tag == t
  | .text _ => false

mutual
/-- Generic goquery `Find`: preorder walk over the strict descendants of
the root, matching with a predicate that may consult ancestor context
(threaded as a state updated on the way down). -/
def selectNodes {σ : Type} (p : σ → HNode → Bool) (upd : σ → HNode → σ)
    (st : σ) (n : HNode) : List HNode :=
  match n with
  | .text _ => []
  | .elem _ _ cs => selectNodesL p upd (upd st n) cs

def selectNodesL {σ : Type} (p : σ → HNode → Bool) (upd : σ → HNode → σ)
    (st : σ) (ns : List HNode) : List HNode :=
  match ns with
  | [] => []
  | c :: cs => (if p st c then [c] else []) ++ selectNodes p upd st c ++ selectNodesL p upd st cs
end

/-- `elem.Find("td")`. -/
def findTds (n : HNode) : List HNode :=
  selectNodes (fun _ c => isTag c "td") (fun _ _ => ()) () n

/-- `elem.Find(".comments")`. -/
def findComments (n : HNode) : List HNode :=
  selectNodes (fun _ c => hasClass c "comments") (fun _ _ => ()) () n

/-- `elem.Find("td a:not(.comments)")`: anchors with a `td` ancestor below
the row, not carrying the `comments` class. -/
def findLinks (n : HNode) : List HNode :=
  selectNodes (fun inTd c => inTd && isTag c "a" && !hasClass c "comments")
    (fun inTd c => inTd || isTag c "td") false n

/-- `doc.Find(".torrent-list tbody tr")`: `tr` under a `tbody` that is
itself under an element with class `torrent-list`. -/
def findRows (doc : HNode) : List HNode :=
  selectNodes (fun st c => st.2 && isTag c "tr")
    (fun st c => (st.1 || hasClass c "torrent-list", st.2 || (st.1 && isTag c "tbody")))
    (false, false) doc

/-! ## Data model -/

/-- Modelled from the spec: the `Media` record (spec §3); its declaration
is not under `src/`, only its uses in `nyaa.go` are.  `uint`/`uint64`
fields are stored as the `Nat` obtained after Go's unsigned conversion;
`Date` is the Unix-epoch second handed to `time.Unix`. -/
structure Media where
  ID : Nat := 0
  Name : String := ""
  Category : String := ""
  Torrent : String := ""
  Magnet : String := ""
  Size : Nat := 0
  Seeders : Nat := 0
  Leechers : Nat := 0
  Downloads : Nat := 0
  CommentCount : Nat := 0
  Date : Int := 0
deriving Repr, DecidableEq

/-- Modelled from the spec: `SearchParameters` (spec §3); its declaration
is not under `src/`.  `Filter` is the numeric filter code, the remaining
fields are string-valued tags, all defaulting to the zero value. -/
structure SearchParameters where
  Filter : Int := 0
  Category : String := ""
  SortBy : String := ""
  SortOrder : String := ""
  User : String := ""
deriving Repr, DecidableEq

/-! ## Row extractor -/

/-- Embedding of `hrefToCategory`. -/
def hrefToCategory (href : String) : String := trimPre href "/?c="

/-- Embedding of `hrefToID`: strip `/view/`, `strconv.Atoi`, convert the
(possibly negative) `int` to `uint`. -/
def hrefToID (href : String) : Except String Nat :=
  match goAtoi (trimPre href "/view/") with
  | .error e => .error e
  | .ok id => .ok (goUint id)

/-- Embedding of `parseMediaElementLinks`.  (On failure Go returns the
partially mutated record together with the error; the caller discards it,
which the `Except` models.) -/
def parseMediaElementLinks (links : List HNode) (media : Media) : Except String Media :=
  if links.length ≠ 4 then
    .error ("unexpected layout: expected 4 links, got " ++ toString links.length)
  else
    -- `links[0]` … `links[3]`, in bounds by the check above
    match getAttributeValueByKey (links.getD 0 (.text "")) "href" with
    | none => .error "unexpected layout: first link does not have an href"
    | some href0 =>
    let m0 := { media with Category := hrefToCategory href0 }
    match getAttributeValueByKey (links.getD 1 (.text "")) "href" with
    | none => .error "unexpected layout: second link does not have an href"
    | some href1 =>
    match hrefToID href1 with
    | .error e => .error ("error parsing ID: " ++ e)
    | .ok id =>
    let m1 := { m0 with ID := id }
    match getAttributeValueByKey (links.getD 1 (.text "")) "title" with
    | none => .error "unexpected layout: second link does not have a title"
    | some title =>
    let m2 := { m1 with Name := title }
    match getAttributeValueByKey (links.getD 2 (.text "")) "href" with
    | none => .error "unexpected layout: third link does not have an href"
    | some href2 =>
    let m3 := { m2 with Torrent := href2 }
    match getAttributeValueByKey (links.getD 3 (.text "")) "href" with
    | none => .error "unexpected layout: fourth link does not have an href"
    | some href3 => .ok { m3 with Magnet := href3 }

/-- Embedding of `parseMediaElementTexts`: size / seeders / leechers /
downloads from cells 3, 5, 6, 7 of the 8 `td` cells. -/
def parseMediaElementTexts (nodes : List HNode) (media : Media) : Except String Media :=
  if nodes.length ≠ 8 then
    .error ("unexpected layout: expected 8 nodes, got " ++ toString nodes.length)
  else
    -- `nodes[3]`, `nodes[5]`, `nodes[6]`, `nodes[7]`, in bounds by the check
    match firstChild (nodes.getD 3 (.text "")) with
    | some (.text d3) =>
      (match fromHumanSize d3 with
      | .error e => .error ("error parsing size: " ++ e)
      | .ok size =>
      let m0 := { media with Size := size.toNat }
      match firstChild (nodes.getD 5 (.text "")) with
      | some (.text d5) =>
        (match goAtoi d5 with
        | .error e => .error ("error parsing se: " ++ e)
        | .ok seeders =>
        let m1 := { m0 with Seeders := goUint seeders }
        match firstChild (nodes.getD 6 (.text "")) with
        | some (.text d6) =>
          (match goAtoi d6 with
          | .error e => .error ("error parsing leechers: " ++ e)
          | .ok leechers =>
          let m2 := { m1 with Leechers := goUint leechers }
          match firstChild (nodes.getD 7 (.text "")) with
          | some (.text d7) =>
            (match goAtoi d7 with
            | .error e => .error ("error parsing downloads: " ++ e)
            | .ok downloads => .ok { m2 with Downloads := goUint downloads })
          | _ => .error "unexpected layout: expected node 8 to have a text first child")
        | _ => .error "unexpected layout: expected node 7 to have a text first child")
      | _ => .error "unexpected layout: expected node 6 to have a text first child")
    | _ => .error "unexpected layout: expected node 4 to have a text first child"

/-- Embedding of `parseMediaElementTimestamp`.  Go indexes `nodes[4]`
unconditionally; the function is only invoked after
`parseMediaElementTexts` established the cell count is 8, so the
out-of-range branch (a Go panic) is unreachable from `parseMediaElement`. -/
def parseMediaElementTimestamp (nodes : List HNode) (media : Media) : Except String Media :=
  match nodes.get? 4 with
  | none => .error "index out of range"
  | some n4 =>
    match getAttributeValueByKey n4 "data-timestamp" with
    | none => .error "unexpected layout: expected node 5 to have a data-timestamp"
    | some timestamp =>
      match goAtoi timestamp with
      | .error e => .error ("error parsing timestamp: " ++ e)
      | .ok t => .ok { media with Date := t }

/-- Embedding of `parseMediaElementCommentCount`. -/
def parseMediaElementCommentCount (elem : HNode) (media : Media) : Except String Media :=
  match findComments elem with
  | [] => .ok media
  | [n] =>
    match lastChild n with
    | some (.text t) =>
      (match goAtoi t with
      | .error e => .error ("error parsing comment count: " ++ e)
      | .ok c => .ok { media with CommentCount := goUint c })
    | _ => .error "unexpected layout: expected comments elem to have a text last child"
  | _ => .error "found more than one comments element"

/-- Embedding of `parseMediaElement`: the four sequential extraction
stages over one result row. -/
def parseMediaElement (elem : HNode) : Except String Media :=
  match parseMediaElementLinks (findLinks elem) {} with
  | .error e => .error e
  | .ok m0 =>
  match parseMediaElementTexts (findTds elem) m0 with
  | .error e => .error e
  | .ok m1 =>
  match parseMediaElementTimestamp (findTds elem) m1 with
  | .error e => .error e
  | .ok m2 =>
  match parseMediaElementCommentCount elem m2 with
  | .error e => .error e
  | .ok m3 => .ok m3

/-! ## Search page parser / concurrent aggregator

`parseSearchPageHTML` runs one goroutine that visits the rows in document
order (`selection.Each` is a sequential loop); a success writes slot `i`
and decrements the wait group, the first failure is delivered through the
unbuffered error channel and wins the `select` (the done channel can fire
only when every row succeeded).  The observable result is therefore:
first error in document order, wrapped, or the slot array in row order. -/

/-- The worker/aggregator outcome over the row list: first failing row's
wrapped error, or all extracted records in row order. -/
def collectRows (rows : List HNode) : Except String (List Media) :=
  match rows with
  | [] => .ok []
  | r :: rs =>
    match parseMediaElement r with
    | .error e => .error ("error parsing media element: " ++ e)
    | .ok m =>
      match collectRows rs with
      | .error e => .error e
      | .ok ms => .ok (m :: ms)

/-- Embedding of `parseSearchPageHTML`. -/
def parseSearchPageHTML (doc : HNode) : Except String (List Media) :=
  collectRows (findRows doc)

/-! ## Query builder and orchestrator -/

/-- The fixed base location (package variable `NyaaURL`). -/
def NyaaURL : String := "https://nyaa.si"

/-- UTF-8 encoding of one character (byte values as `Nat`). -/
def utf8Bytes (c : Char) : List Nat :=
  let n := c.toNat
  if n < 128 then [n]
  else if n < 2048 then [192 + n / 64, 128 + n % 64]
  else if n < 65536 then [224 + n / 4096, 128 + (n / 64) % 64, 128 + n % 64]
  else [240 + n / 262144, 128 + (n / 4096) % 64, 128 + (n / 64) % 64, 128 + n % 64]

def hexUpper (n : Nat) : Char :=
  if n < 10 then Char.ofNat (48 + n) else Char.ofNat (65 + n - 10)

/-- Go `shouldEscape`: bytes that never need escaping (alphanumerics and
`-_.~`). -/
def isUnreservedByte (b : Nat) : Bool :=
  (97 ≤ b && b ≤ 122) || (65 ≤ b && b ≤ 90) || (48 ≤ b && b ≤ 57) ||
  b == 45 || b == 95 || b == 46 || b == 126

def percentByte (b : Nat) : List Char := ['%', hexUpper (b / 16), hexUpper (b % 16)]

/-- Embedding of Go `url.QueryEscape` (`encodeQueryComponent` mode):
space becomes `+`, unreserved bytes stay, every other byte is
percent-encoded. -/
def queryEscape (s : String) : String :=
  String.mk ((s.toList.flatMap utf8Bytes).flatMap (fun b =>
    if b == 32 then ['+']
    else if isUnreservedByte b then [Char.ofNat b]
    else percentByte b))

/-- Embedding of Go `url.PathEscape` (`encodePathSegment` mode): the
reserved characters `$ & + : = @` also stay literal; `/ ; , ?` and
everything else non-unreserved is percent-encoded. -/
def pathEscape (s : String) : String :=
  String.mk ((s.toList.flatMap utf8Bytes).flatMap (fun b =>
    if isUnreservedByte b || b == 36 || b == 38 || b == 43 || b == 58 || b == 61 || b == 64 then
      [Char.ofNat b]
    else percentByte b))

/-- Embedding of `urlForParams`.  Faithfully to the source, `baseURL`
(with the `/user/` segment) is computed and then never used: the code
parses and returns `NyaaURL` instead.  `url.Parse` of the constant
`"https://nyaa.si"` always succeeds, so the defensive error branch is
dead; `url.Values.Encode` emits the keys sorted (`c, f, o, q, s`), each
value query-escaped. -/
def urlForParams (search : String) (parameters : SearchParameters) : Except String String :=
  let baseURL := NyaaURL ++ (if parameters.User != "" then "/user/" ++ pathEscape parameters.User else "")
  let _ := baseURL
  let encoded :=
    "c=" ++ queryEscape parameters.Category ++
    "&f=" ++ queryEscape (toString parameters.Filter) ++
    "&o=" ++ queryEscape parameters.SortOrder ++
    "&q=" ++ queryEscape search ++
    "&s=" ++ queryEscape parameters.SortBy
  .ok (NyaaURL ++ "?" ++ encoded)

/-- Embedding of `getOneParameterSet`. -/
def getOneParameterSet (parameters : List SearchParameters) : Except String SearchParameters :=
  if parameters.length > 1 then .error "only one parameter set accepted"
  else
    match parameters with
    | [p] => .ok p
    | _ => .ok {}

/-- An HTTP response as `requestHTML` consumes it: numeric status code,
status line (Go's `rep.Status`, e.g. `"404 Not Found"`) and body. -/
structure HttpResponse where
  statusCode : Nat
  status : String
  body : String

/-- Embedding of `requestHTML`.  The HTTP transport (`http.Get`) and the
HTML parser (`goquery.NewDocumentFromReader`) are external collaborators,
passed as function-valued parameters. -/
def requestHTML (search : String) (params : SearchParameters)
    (httpGet : String → Except String HttpResponse)
    (newDocumentFromReader : String → Except String HNode) : Except String HNode :=
  match urlForParams search params with
  | .error e => .error ("error creating url for search: " ++ e)
  | .ok u =>
    match httpGet u with
    | .error e => .error ("error requesting results: " ++ e)
    | .ok rep =>
      if rep.statusCode < 200 || 300 ≤ rep.statusCode then
        .error ("non-OK HTTP status code: " ++ toString rep.statusCode ++ " " ++ rep.status)
      else
        match newDocumentFromReader rep.body with
        | .error e => .error ("error parsing response html: " ++ e)
        | .ok doc => .ok doc

/-- Embedding of `Search`. -/
def Search (search : String) (parameters : List SearchParameters)
    (httpGet : String → Except String HttpResponse)
    (newDocumentFromReader : String → Except String HNode) : Except String (List Media) :=
  match getOneParameterSet parameters with
  | .error e => .error e
  | .ok params =>
    match requestHTML search params httpGet newDocumentFromReader with
    | .error e => .error ("error getting the nyaa page: " ++ e)
    | .ok doc =>
      match parseSearchPageHTML doc with
      | .error e => .error ("error parsing html: " ++ e)
      | .ok medias => .ok medias

/-! ## Specification-side predicates

Independent characterizations (phrased with `Nat.ofDigits` and explicit
list shapes, not with the scanner above) used to state what the parsing
code accepts. -/

/-- Value of a big-endian digit-character list, specification style. -/
def digitsSpecVal (ds : List Char) : Nat := Nat.ofDigits 10 ((ds.map digitVal).reverse)

/-- `goIntSpec s v`: `s` is a decimal integer literal in Go `int` (64-bit)
range with value `v` — an optional sign followed by one or more digits. -/
def goIntSpec (s : String) (v : Int) : Prop :=
  ∃ ds : List Char, ds ≠ [] ∧ (∀ c ∈ ds, c.isDigit) ∧
    ((s.toList = ds ∨ s.toList = '+' :: ds) ∧ v = (digitsSpecVal ds : Int) ∨
      (s.toList = '-' :: ds ∧ v = -(digitsSpecVal ds : Int))) ∧
    -(2 ^ 63) ≤ v ∧ v ≤ 2 ^ 63 - 1

/-- Substring test over character lists (used to state that a URL does
not contain a path segment). -/
def listContainsSub (needle hay : List Char) : Bool :=
  match hay with
  | [] => needle.isEmpty
  | _ :: t => needle.isPrefixOf hay || listContainsSub needle t

def strContainsSub (hay needle : String) : Bool :=
  listContainsSub needle.toList hay.toList

/-! ## Concrete fixtures

Rows shaped like the nyaa.si results table, used to instantiate the
theorems below at concrete inputs. -/

/-- A well-formed result row: 8 cells, 4 qualifying anchors. -/
def validRow : HNode :=
  .elem "tr" [("class", "default")]
    [ .elem "td" [] [.elem "a" [("href", "/?c=1_2")] []],
      .elem "td" [("colspan", "2")] [.elem "a" [("href", "/view/123"), ("title", "Naruto")] [.text "Naruto"]],
      .elem "td" [("class", "text-center")]
        [ .elem "a" [("href", "/download/123.torrent")] [],
          .elem "a" [("href", "magnet:?xt=urn:btih:abc")] [] ],
      .elem "td" [("class", "text-center")] [.text "1.5 GiB"],
      .elem "td" [("class", "text-center"), ("data-timestamp", "1600000000")] [.text "2020-09-13"],
      .elem "td" [("class", "text-center")] [.text "10"],
      .elem "td" [("class", "text-center")] [.text "2"],
      .elem "td" [("class", "text-center")] [.text "5"] ]

/-- The record `validRow` extracts to. -/
def validRowMedia : Media :=
  { ID := 123, Name := "Naruto", Category := "1_2", Torrent := "/download/123.torrent",
    Magnet := "magnet:?xt=urn:btih:abc", Size := 1500000000, Seeders := 10, Leechers := 2,
    Downloads := 5, CommentCount := 0, Date := 1600000000 }

/-- A second well-formed row, with a comment marker (3 comments). -/
def validRow2 : HNode :=
  .elem "tr" [("class", "default")]
    [ .elem "td" [] [.elem "a" [("href", "/?c=3_1")] []],
      .elem "td" [("colspan", "2")]
        [ .elem "a" [("class", "comments"), ("href", "/view/456#comments")] [.text "3"],
          .elem "a" [("href", "/view/456"), ("title", "Bleach")] [.text "Bleach"] ],
      .elem "td" [("class", "text-center")]
        [ .elem "a" [("href", "/download/456.torrent")] [],
          .elem "a" [("href", "magnet:?xt=urn:btih:def")] [] ],
      .elem "td" [("class", "text-center")] [.text "2 MiB"],
      .elem "td" [("class", "text-center"), ("data-timestamp", "1700000000")] [.text "2023-11-14"],
      .elem "td" [("class", "text-center")] [.text "7"],
      .elem "td" [("class", "text-center")] [.text "0"],
      .elem "td" [("class", "text-center")] [.text "42"] ]

/-- The record `validRow2` extracts to (`FromHumanSize "2 MiB"` is decimal:
2 × 10 ^ 6). -/
def validRow2Media : Media :=
  { ID := 456, Name := "Bleach", Category := "3_1", Torrent := "/download/456.torrent",
    Magnet := "magnet:?xt=urn:btih:def", Size := 2000000, Seeders := 7, Leechers := 0,
    Downloads := 42, CommentCount := 3, Date := 1700000000 }

/-- A malformed row: like `validRow` but the second anchor has no `title`
attribute. -/
def badRowNoTitle : HNode :=
  .elem "tr" [("class", "default")]
    [ .elem "td" [] [.elem "a" [("href", "/?c=1_2")] []],
      .elem "td" [("colspan", "2")] [.elem "a" [("href", "/view/123")] [.text "Naruto"]],
      .elem "td" [("class", "text-center")]
        [ .elem "a" [("href", "/download/123.torrent")] [],
          .elem "a" [("href", "magnet:?xt=urn:btih:abc")] [] ],
      .elem "td" [("class", "text-center")] [.text "1.5 GiB"],
      .elem "td" [("class", "text-center"), ("data-timestamp", "1600000000")] [.text "2020-09-13"],
      .elem "td" [("class", "text-center")] [.text "10"],
      .elem "td" [("class", "text-center")] [.text "2"],
      .elem "td" [("class", "text-center")] [.text "5"] ]

/-- A malformed row whose ID anchor href has a non-numeric remainder. -/
def badRowBadID : HNode :=
  .elem "tr" [("class", "default")]
    [ .elem "td" [] [.elem "a" [("href", "/?c=1_2")] []],
      .elem "td" [("colspan", "2")] [.elem "a" [("href", "/view/oops"), ("title", "Naruto")] []],
      .elem "td" [("class", "text-center")]
        [ .elem "a" [("href", "/download/123.torrent")] [],
          .elem "a" [("href", "magnet:?xt=urn:btih:abc")] [] ],
      .elem "td" [("class", "text-center")] [.text "1.5 GiB"],
      .elem "td" [("class", "text-center"), ("data-timestamp", "1600000000")] [.text "2020-09-13"],
      .elem "td" [("class", "text-center")] [.text "10"],
      .elem "td" [("class", "text-center")] [.text "2"],
      .elem "td" [("class", "text-center")] [.text "5"] ]

/-- A row with a single cell holding the four anchors, the first of which
has no `href`: the link count is 4 (so the anchor-count check passes) but
link extraction fails before the 8-cell check is ever reached. -/
def rowOneCellNoHref : HNode :=
  .elem "tr" []
    [ .elem "td" []
        [ .elem "a" [("title", "no href here")] [],
          .elem "a" [("href", "/view/123"), ("title", "Naruto")] [],
          .elem "a" [("href", "/download/123.torrent")] [],
          .elem "a" [("href", "magnet:?xt=urn:btih:abc")] [] ] ]

/-- A row with a single cell holding four well-formed anchors: link
extraction succeeds, after which the 8-cell check fails (1 cell). -/
def rowOneCellGoodLinks : HNode :=
  .elem "tr" []
    [ .elem "td" []
        [ .elem "a" [("href", "/?c=1_2")] [],
          .elem "a" [("href", "/view/123"), ("title", "Naruto")] [],
          .elem "a" [("href", "/download/123.torrent")] [],
          .elem "a" [("href", "magnet:?xt=urn:btih:abc")] [] ] ]

/-- A row with no anchors at all. -/
def rowNoLinks : HNode := .elem "tr" [] [.elem "td" [] [.text "empty"]]

/-- A row fragment with one comment marker whose text is `"-1"`. -/
def rowNegComments : HNode :=
  .elem "tr" []
    [.elem "td" [] [.elem "a" [("class", "comments"), ("href", "/view/9#comments")] [.text "-1"]]]

/-- A row fragment with two comment markers. -/
def rowTwoComments : HNode :=
  .elem "tr" []
    [ .elem "td" [] [.elem "a" [("class", "comments")] [.text "1"]],
      .elem "td" [] [.elem "a" [("class", "comments")] [.text "2"]] ]

/-- A document holding the given rows under `.torrent-list tbody`. -/
def mkDoc (rows : List HNode) : HNode :=
  .elem "html" []
    [.elem "body" []
      [.elem "div" [("class", "table-responsive")]
        [.elem "table" [("class", "table torrent-list")]
          [.elem "thead" [] [.elem "tr" [] []],
           .elem "tbody" [] rows]]]]

/-- Stub HTTP transport: always fails (no network). -/
def httpGetStub : String → Except String HttpResponse := fun _ => .error "offline"

/-- Stub HTTP transport answering 404 to every request. -/
def httpGet404 : String → Except String HttpResponse :=
  fun _ => .ok { statusCode := 404, status := "404 Not Found", body := "<html></html>" }

/-- Stub document parser. -/
def newDocStub : String → Except String HNode := fun _ => .error "unparsable"

/-! ## Helper lemmas -/

lemma digitsFold_eq_spec (ds : List Char) : digitsFold ds = digitsSpecVal ds := by
  induction ds using List.reverseRecOn with
  | nil => rfl
  | append_singleton t c ih =>
    simp only [digitsFold, List.foldl_append, List.foldl_cons, List.foldl_nil] at *
    simp only [digitsSpecVal, List.map_append, List.map_cons, List.map_nil,
      List.reverse_append, List.reverse_cons, List.reverse_nil, List.nil_append,
      List.cons_append, Nat.ofDigits_cons] at *
    omega

lemma isDigit_ne_minus {c : Char} (h : c.isDigit = true) : (c == '-') = false := by
  cases hc : c == '-'
  · rfl
  · rw [beq_iff_eq] at hc; subst hc; exact absurd h (by decide)

lemma isDigit_ne_plus {c : Char} (h : c.isDigit = true) : (c == '+') = false := by
  cases hc : c == '+'
  · rfl
  · rw [beq_iff_eq] at hc; subst hc; exact absurd h (by decide)

lemma ne_nil_of_isEmpty_false {α : Type} {l : List α} (h : l.isEmpty = false) : l ≠ [] := by
  cases l <;> simp_all

lemma isEmpty_false_of_ne_nil {α : Type} {l : List α} (h : l ≠ []) : l.isEmpty = false := by
  cases l <;> simp_all

lemma goAtoi_ok_iff (s : String) (v : Int) : goAtoi s = .ok v ↔ goIntSpec s v := by
  constructor
  · intro h
    unfold goAtoi at h
    split at h
    · exact absurd h (by simp)
    · split at h
      · exact absurd h (by simp)
      · rename_i hsyn hrange
        injection h with hv
        simp only [Bool.or_eq_true, not_or, Bool.not_eq_true, Bool.not_eq_true'] at hsyn
        obtain ⟨hne, hall⟩ := hsyn
        simp only [Bool.or_eq_true, not_or, decide_eq_true_eq, not_lt] at hrange
        obtain ⟨hlo, hhi⟩ := hrange
        rcases hcs : s.toList with _ | ⟨c, r⟩
        · rw [hcs] at hne; simp [atoiDigits] at hne
        · rw [hcs] at hne hall hlo hhi hv
          by_cases hcm : c = '-'
          · subst hcm
            have hds : atoiDigits ('-' :: r) = r := by simp [atoiDigits]
            have hng : atoiNeg ('-' :: r) = true := by simp [atoiNeg]
            rw [hds] at hne hall
            refine ⟨r, ne_nil_of_isEmpty_false hne, by simpa [List.all_eq_true] using hall,
              Or.inr ⟨hcs, ?_⟩, ?_, ?_⟩
            · rw [← hv]; unfold atoiVal; rw [hng, hds]; simp [digitsFold_eq_spec]
            · rwa [hv] at hlo
            · rwa [hv] at hhi
          · by_cases hcp : c = '+'
            · subst hcp
              have hds : atoiDigits ('+' :: r) = r := by simp [atoiDigits]
              have hng : atoiNeg ('+' :: r) = false := by simp [atoiNeg]
              rw [hds] at hne hall
              refine ⟨r, ne_nil_of_isEmpty_false hne, by simpa [List.all_eq_true] using hall,
                Or.inl ⟨Or.inr hcs, ?_⟩, ?_, ?_⟩
              · rw [← hv]; unfold atoiVal; rw [hng, hds]; simp [digitsFold_eq_spec]
              · rwa [hv] at hlo
              · rwa [hv] at hhi
            · have hds : atoiDigits (c :: r) = c :: r := by
                simp [atoiDigits, hcm, hcp]
              have hng : atoiNeg (c :: r) = false := by simp [atoiNeg, hcm]
              rw [hds] at hne hall
              refine ⟨c :: r, ne_nil_of_isEmpty_false hne, by simpa [List.all_eq_true] using hall,
                Or.inl ⟨Or.inl hcs, ?_⟩, ?_, ?_⟩
              · rw [← hv]; unfold atoiVal; rw [hng, hds]; simp [digitsFold_eq_spec]
              · rwa [hv] at hlo
              · rwa [hv] at hhi
  · rintro ⟨ds, hne, hdig, hshape, hlo, hhi⟩
    have hall : ds.all Char.isDigit = true := List.all_eq_true.mpr (fun c hc => hdig c hc)
    have hds0 : ∃ d t, ds = d :: t := by
      cases ds with
      | nil => exact absurd rfl hne
      | cons d t => exact ⟨d, t, rfl⟩
    obtain ⟨d, t, hdt⟩ := hds0
    have hd : d.isDigit = true := hdig d (by rw [hdt]; exact List.mem_cons_self d t)
    have hemp : ds.isEmpty = false := isEmpty_false_of_ne_nil hne
    have hlo2 : ¬ v < -(2 ^ 63) := not_lt.mpr hlo
    have hhi2 : ¬ (2 ^ 63 - 1 : Int) < v := not_lt.mpr hhi
    rcases hshape with ⟨hform | hform, hval⟩ | ⟨hform, hval⟩
    · have hds : atoiDigits s.toList = ds := by
        rw [hform, hdt]
        simp [atoiDigits, isDigit_ne_minus hd, isDigit_ne_plus hd]
      have hng : atoiNeg s.toList = false := by
        rw [hform, hdt]; simp [atoiNeg, isDigit_ne_minus hd]
      have hv : atoiVal s.toList = v := by
        unfold atoiVal; rw [hng, hds]; simp [digitsFold_eq_spec, hval]
      unfold goAtoi
      rw [hds, hv, hemp, hall]
      simp only [Bool.false_or, Bool.not_true, Bool.or_self, Bool.false_eq_true, if_false,
        Bool.not_false]
      simp
      norm_num at hlo hhi
      exact ⟨hlo, hhi⟩
    · have hds : atoiDigits s.toList = ds := by rw [hform]; simp [atoiDigits]
      have hng : atoiNeg s.toList = false := by rw [hform]; simp [atoiNeg]
      have hv : atoiVal s.toList = v := by
        unfold atoiVal; rw [hng, hds]; simp [digitsFold_eq_spec, hval]
      unfold goAtoi
      rw [hds, hv, hemp, hall]
      simp only [Bool.false_or, Bool.not_true, Bool.or_self, Bool.false_eq_true, if_false,
        Bool.not_false]
      simp
      norm_num at hlo hhi
      exact ⟨hlo, hhi⟩
    · have hds : atoiDigits s.toList = ds := by rw [hform]; simp [atoiDigits]
      have hng : atoiNeg s.toList = true := by rw [hform]; simp [atoiNeg]
      have hv : atoiVal s.toList = v := by
        unfold atoiVal; rw [hng, hds]; simp [digitsFold_eq_spec, hval]
      unfold goAtoi
      rw [hds, hv, hemp, hall]
      simp only [Bool.false_or, Bool.not_true, Bool.or_self, Bool.false_eq_true, if_false,
        Bool.not_false]
      simp
      norm_num at hlo hhi
      exact ⟨hlo, hhi⟩

lemma collectRows_ok (rows : List HNode)
    (h : ∀ r ∈ rows, ∃ m, parseMediaElement r = .ok m) :
    ∃ ms, collectRows rows = .ok ms ∧ ms.length = rows.length ∧
      ∀ i, i < rows.length →
        parseMediaElement (rows.getD i (HNode.text "")) = .ok (ms.getD i {}) := by
  induction rows with
  | nil => exact ⟨[], rfl, rfl, fun i hi => absurd hi (by simp)⟩
  | cons r rs ih =>
    obtain ⟨m, hm⟩ := h r (List.mem_cons_self r rs)
    obtain ⟨ms, hms, hlen, hidx⟩ := ih (fun x hx => h x (List.mem_cons_of_mem r hx))
    refine ⟨m :: ms, ?_, by simp [hlen], ?_⟩
    · unfold collectRows; rw [hm, hms]
    · intro i hi
      cases i with
      | zero => simpa using hm
      | succ j => simpa using hidx j (by simpa using hi)

lemma collectRows_err (rows : List HNode) (k : Nat) (e : String)
    (hk : k < rows.length)
    (he : parseMediaElement (rows.getD k (HNode.text "")) = .error e)
    (hpre : ∀ j, j < k → ∃ m, parseMediaElement (rows.getD j (HNode.text "")) = .ok m) :
    collectRows rows = .error ("error parsing media element: " ++ e) := by
  induction rows generalizing k with
  | nil => simp at hk
  | cons r rs ih =>
    cases k with
    | zero =>
      simp only [List.getD_cons_zero] at he
      unfold collectRows; rw [he]
    | succ j =>
      obtain ⟨m, hm⟩ := hpre 0 (Nat.succ_pos j)
      simp only [List.getD_cons_zero] at hm
      have hrec := ih j (by simpa using hk) (by simpa using he)
        (fun i hi => by simpa using hpre (i + 1) (by omega))
      unfold collectRows; rw [hm, hrec]

lemma parseMediaElementLinks_len (ls : List HNode) (m : Media) (h : ls.length ≠ 4) :
    parseMediaElementLinks ls m =
      .error ("unexpected layout: expected 4 links, got " ++ toString ls.length) := by
  unfold parseMediaElementLinks
  rw [if_pos h]

lemma parseMediaElementTexts_len (ns : List HNode) (m : Media) (h : ns.length ≠ 8) :
    parseMediaElementTexts ns m =
      .error ("unexpected layout: expected 8 nodes, got " ++ toString ns.length) := by
  unfold parseMediaElementTexts
  rw [if_pos h]


lemma commentCount_zero (elem : HNode) (m : Media) (h0 : findComments elem = []) :
    parseMediaElementCommentCount elem m = .ok m := by
  unfold parseMediaElementCommentCount
  rw [h0]

lemma commentCount_many (elem : HNode) (m : Media) (h2 : 2 ≤ (findComments elem).length) :
    parseMediaElementCommentCount elem m = .error "found more than one comments element" := by
  unfold parseMediaElementCommentCount
  match hc : findComments elem with
  | [] => rw [hc] at h2; simp at h2
  | [n] => rw [hc] at h2; simp at h2
  | a :: b :: t => rfl

lemma commentCount_one_nontext (elem : HNode) (m : Media) (n : HNode)
    (h1 : findComments elem = [n]) (ht : ∀ t, lastChild n ≠ some (.text t)) :
    parseMediaElementCommentCount elem m =
      .error "unexpected layout: expected comments elem to have a text last child" := by
  unfold parseMediaElementCommentCount
  rw [h1]
  simp only []

lemma commentCount_one_text (elem : HNode) (m : Media) (n : HNode) (t : String)
    (h1 : findComments elem = [n]) (hl : lastChild n = some (.text t)) :
    (∃ v, goIntSpec t v ∧
      parseMediaElementCommentCount elem m = .ok { m with CommentCount := goUint v }) ∨
    ((¬ ∃ v, goIntSpec t v) ∧ ∃ e, parseMediaElementCommentCount elem m = .error e) := by
  have hred : parseMediaElementCommentCount elem m =
      (match goAtoi t with
       | .error e => .error ("error parsing comment count: " ++ e)
       | .ok c => .ok { m with CommentCount := goUint c }) := by
    unfold parseMediaElementCommentCount
    rw [h1]
    simp only [hl]
  cases hg : goAtoi t with
  | ok v =>
    exact Or.inl ⟨v, (goAtoi_ok_iff _ v).mp hg, by rw [hred, hg]⟩
  | error e =>
    refine Or.inr ⟨?_, "error parsing comment count: " ++ e, by rw [hred, hg]⟩
    rintro ⟨v, hv⟩
    rw [← goAtoi_ok_iff, hg] at hv
    exact absurd hv (by simp)

/-! ## Claims -/

/-- C1: the spec claims the query builder appends `/user/<user>` when
`params.User` is non-empty.  The code computes such a `baseURL` and then
parses and returns the bare `NyaaURL` instead, so the produced URL never
contains the segment; evaluation at the failing input `search = "x"`,
`User = "alice"` (the third conjunct shows the dead `baseURL` would have
carried it). -/
theorem urlForParams_drops_user_segment :
    urlForParams "x" { User := "alice" } = .ok "https://nyaa.si?c=&f=0&o=&q=x&s=" ∧
    strContainsSub "https://nyaa.si?c=&f=0&o=&q=x&s=" "/user/alice" = false ∧
    strContainsSub (NyaaURL ++ "/user/" ++ pathEscape "alice") "/user/alice" = true :=
  ⟨rfl, rfl, rfl⟩

/-- C2: when every row extracts successfully, `parseSearchPageHTML`
returns a list of exactly the row count in which index `i` holds the
record of document row `i` (the extraction loop is sequential and writes
slot `i` from row `i`, so the output is deterministic in row order). -/
theorem parseSearchPage_ok_ordered (doc : HNode)
    (h : ∀ r ∈ findRows doc, ∃ m, parseMediaElement r = .ok m) :
    ∃ ms, parseSearchPageHTML doc = .ok ms ∧ ms.length = (findRows doc).length ∧
      ∀ i, i < (findRows doc).length →
        parseMediaElement ((findRows doc).getD i (HNode.text "")) = .ok (ms.getD i {}) :=
  collectRows_ok (findRows doc) h

theorem parseSearchPage_ok_ordered_witness :
    ∃ ms, parseSearchPageHTML (mkDoc [validRow, validRow2]) = .ok ms ∧
      ms.length = (findRows (mkDoc [validRow, validRow2])).length ∧
      ∀ i, i < (findRows (mkDoc [validRow, validRow2])).length →
        parseMediaElement ((findRows (mkDoc [validRow, validRow2])).getD i (HNode.text "")) =
          .ok (ms.getD i {}) :=
  parseSearchPage_ok_ordered (mkDoc [validRow, validRow2]) (by
    intro r hr
    rw [show findRows (mkDoc [validRow, validRow2]) = [validRow, validRow2] from rfl] at hr
    simp only [List.mem_cons, List.not_mem_nil, or_false] at hr
    rcases hr with rfl | rfl
    · exact ⟨validRowMedia, rfl⟩
    · exact ⟨validRow2Media, rfl⟩)

/-- C3: a malformed row makes `parseSearchPageHTML` fail with that row's
wrapped error and never yields a list; the aggregation always reaches one
of its two terminal outcomes (the model is a total function), and zero
rows succeed with the empty list. -/
theorem parseSearchPage_malformed_row :
    (∀ doc, findRows doc = [] → parseSearchPageHTML doc = .ok []) ∧
    (∀ doc, (∃ e, parseSearchPageHTML doc = .error e) ∨
      (∃ ms, parseSearchPageHTML doc = .ok ms)) ∧
    (∀ doc k e, k < (findRows doc).length →
      parseMediaElement ((findRows doc).getD k (HNode.text "")) = .error e →
      (∀ j, j < (findRows doc).length → j ≠ k →
        ∃ m, parseMediaElement ((findRows doc).getD j (HNode.text "")) = .ok m) →
      parseSearchPageHTML doc = .error ("error parsing media element: " ++ e) ∧
        ∀ ms, parseSearchPageHTML doc ≠ .ok ms) := by
  refine ⟨?_, ?_, ?_⟩
  · intro doc h
    unfold parseSearchPageHTML
    rw [h]
    rfl
  · intro doc
    cases h : parseSearchPageHTML doc with
    | error e => exact Or.inl ⟨e, rfl⟩
    | ok ms => exact Or.inr ⟨ms, rfl⟩
  · intro doc k e hk he hothers
    have hpre : ∀ j, j < k →
        ∃ m, parseMediaElement ((findRows doc).getD j (HNode.text "")) = .ok m :=
      fun j hj => hothers j (by omega) (by omega)
    have herr := collectRows_err (findRows doc) k e hk he hpre
    have hps : parseSearchPageHTML doc = .error ("error parsing media element: " ++ e) := herr
    exact ⟨hps, fun ms hok => by rw [hps] at hok; exact absurd hok (by simp)⟩

theorem parseSearchPage_malformed_row_witness :
    parseSearchPageHTML (mkDoc []) = .ok [] ∧
    parseSearchPageHTML (mkDoc [validRow, badRowNoTitle]) =
      .error "error parsing media element: unexpected layout: second link does not have a title" ∧
    ∀ ms, parseSearchPageHTML (mkDoc [validRow, badRowNoTitle]) ≠ .ok ms := by
  have h3 := parseSearchPage_malformed_row
  have hmain := h3.2.2 (mkDoc [validRow, badRowNoTitle]) 1
    "unexpected layout: second link does not have a title"
    (by decide) rfl
    (by
      intro j hj hne
      rw [show (findRows (mkDoc [validRow, badRowNoTitle])).length = 2 from rfl] at hj
      interval_cases j
      · exact ⟨validRowMedia, rfl⟩
      · exact absurd rfl hne)
  exact ⟨h3.1 (mkDoc []) rfl, hmain.1, hmain.2⟩

/-- C10: the extraction loop visits rows in document order in a single
worker and the first failure wins the select, so with every row before
`k` valid and row `k` malformed the returned error is row `k`'s,
regardless of what later rows (possibly also malformed) contain. -/
theorem parseSearchPage_first_error_wins (doc : HNode) (k : Nat) (e : String)
    (hk : k < (findRows doc).length)
    (he : parseMediaElement ((findRows doc).getD k (HNode.text "")) = .error e)
    (hpre : ∀ j, j < k →
      ∃ m, parseMediaElement ((findRows doc).getD j (HNode.text "")) = .ok m) :
    parseSearchPageHTML doc = .error ("error parsing media element: " ++ e) :=
  collectRows_err (findRows doc) k e hk he hpre

theorem parseSearchPage_first_error_wins_witness :
    parseSearchPageHTML (mkDoc [badRowBadID, badRowNoTitle]) =
      .error "error parsing media element: error parsing ID: strconv.Atoi: parsing \"oops\": invalid syntax" :=
  parseSearchPage_first_error_wins (mkDoc [badRowBadID, badRowNoTitle]) 0
    "error parsing ID: strconv.Atoi: parsing \"oops\": invalid syntax"
    (by decide) rfl (fun j hj => absurd hj (by omega))

/-- C4 (amended): a size cell reading `"1.5 GiB"` is parsed by
`units.FromHumanSize`, whose unit map is decimal, so the extracted `Size`
is 1.5 × 10 ^ 9 = 1500000000 bytes — not the binary 1.5 × 2 ^ 30. -/
theorem texts_size_cell_GiB_decimal (ns : List HNode) (m m' : Media)
    (h : parseMediaElementTexts ns m = .ok m')
    (hcell : firstChild (ns.getD 3 (HNode.text "")) = some (.text "1.5 GiB")) :
    m'.Size = 1500000000 := by
  unfold parseMediaElementTexts at h
  split at h
  · exact absurd h (by simp)
  · rw [hcell] at h
    simp only [] at h
    rw [show fromHumanSize "1.5 GiB" = Except.ok (1500000000 : Int) from rfl] at h
    simp only [] at h
    repeat
      first
      | split at h
      | (injection h with h'; subst h'; rfl)
      | injection h

theorem texts_size_cell_GiB_decimal_witness :
    ({ Size := 1500000000, Seeders := 10, Leechers := 2, Downloads := 5 } : Media).Size =
      1500000000 :=
  texts_size_cell_GiB_decimal (findTds validRow) {}
    { Size := 1500000000, Seeders := 10, Leechers := 2, Downloads := 5 } rfl rfl

/-- C4 counterexample: on `validRow`, whose size cell holds `"1.5 GiB"`,
the cell extraction succeeds with `Size = 1500000000`, which differs from
the 1.5 × 2 ^ 30 = 1610612736 the claim requires. -/
theorem texts_size_cell_GiB_not_binary :
    parseMediaElementTexts (findTds validRow) {} =
      .ok { Size := 1500000000, Seeders := 10, Leechers := 2, Downloads := 5 } ∧
    (1500000000 : Nat) ≠ 1610612736 :=
  ⟨rfl, by decide⟩

/-- C5 (amended): `hrefToID` strips `/view/` and runs `strconv.Atoi`: it
fails exactly when the remainder is not a syntactically valid decimal
integer (optional sign, digits, 64-bit signed range); any valid remainder
— including `0` and negative values — succeeds, with the value mapped
through Go's unsigned 64-bit conversion. -/
theorem hrefToID_atoi_spec (href : String) :
    (∃ v, goIntSpec (trimPre href "/view/") v ∧ hrefToID href = .ok (goUint v)) ∨
    ((¬ ∃ v, goIntSpec (trimPre href "/view/") v) ∧ ∃ e, hrefToID href = .error e) := by
  cases hg : goAtoi (trimPre href "/view/") with
  | ok v =>
    exact Or.inl ⟨v, (goAtoi_ok_iff _ v).mp hg, by unfold hrefToID; rw [hg]⟩
  | error e =>
    refine Or.inr ⟨?_, e, by unfold hrefToID; rw [hg]⟩
    rintro ⟨v, hv⟩
    rw [← goAtoi_ok_iff, hg] at hv
    exact absurd hv (by simp)

/-- C5 counterexample: a zero remainder yields `ID = 0` and a negative
remainder yields the wrapped-around `ID = 2 ^ 64 - 5`, with no ID-parse
error in either case, contrary to the claim that zero and negative
remainders fail. -/
theorem hrefToID_zero_neg_accepted :
    hrefToID "/view/0" = .ok 0 ∧ hrefToID "/view/-5" = .ok 18446744073709551611 :=
  ⟨rfl, rfl⟩

/-- C6 (amended): zero comment markers leave `CommentCount = 0` with no
error; two or more yield the ambiguous-layout error; exactly one marker
requires a text last child whose text `strconv.Atoi` accepts — any valid
integer, converted through Go's unsigned conversion (so a negative count
wraps around rather than failing) — and fails otherwise. -/
theorem commentCount_behavior :
    (∀ elem m, findComments elem = [] →
      parseMediaElementCommentCount elem m = .ok m) ∧
    (∀ elem m, 2 ≤ (findComments elem).length →
      parseMediaElementCommentCount elem m = .error "found more than one comments element") ∧
    (∀ elem m n, findComments elem = [n] → (∀ t, lastChild n ≠ some (.text t)) →
      parseMediaElementCommentCount elem m =
        .error "unexpected layout: expected comments elem to have a text last child") ∧
    (∀ elem m n t, findComments elem = [n] → lastChild n = some (.text t) →
      (∃ v, goIntSpec t v ∧
        parseMediaElementCommentCount elem m = .ok { m with CommentCount := goUint v }) ∨
      ((¬ ∃ v, goIntSpec t v) ∧ ∃ e, parseMediaElementCommentCount elem m = .error e)) :=
  ⟨commentCount_zero, commentCount_many, commentCount_one_nontext, commentCount_one_text⟩

theorem commentCount_behavior_witness :
    parseMediaElementCommentCount validRow {} = .ok {} ∧
    parseMediaElementCommentCount rowTwoComments {} =
      .error "found more than one comments element" :=
  ⟨commentCount_behavior.1 validRow {} rfl,
    commentCount_behavior.2.1 rowTwoComments {} (by decide)⟩

/-- C6 counterexample: one comment marker whose text is `"-1"` does not
fail; Go's `uint` conversion wraps it to 2 ^ 64 - 1. -/
theorem commentCount_negative_wraps :
    parseMediaElementCommentCount rowNegComments {} =
      .ok { CommentCount := 18446744073709551615 } := rfl

/-- C7 (amended): an anchor count other than 4 always fails with the
anchor-count mismatch error; a cell count other than 8 fails with the
cell-count mismatch error provided the link stage succeeded (otherwise
the earlier link-stage error is reported instead); in no case is a Media
record produced. -/
theorem parseMediaElement_count_mismatch :
    (∀ elem, (findLinks elem).length ≠ 4 →
      parseMediaElement elem =
        .error ("unexpected layout: expected 4 links, got " ++
          toString (findLinks elem).length)) ∧
    (∀ elem m0, parseMediaElementLinks (findLinks elem) {} = .ok m0 →
      (findTds elem).length ≠ 8 →
      parseMediaElement elem =
        .error ("unexpected layout: expected 8 nodes, got " ++
          toString (findTds elem).length)) := by
  constructor
  · intro elem h
    unfold parseMediaElement
    rw [parseMediaElementLinks_len _ _ h]
  · intro elem m0 hok h
    unfold parseMediaElement
    rw [hok]
    simp only []
    rw [parseMediaElementTexts_len _ _ h]

theorem parseMediaElement_count_mismatch_witness :
    parseMediaElement rowNoLinks = .error "unexpected layout: expected 4 links, got 0" ∧
    parseMediaElement rowOneCellGoodLinks =
      .error "unexpected layout: expected 8 nodes, got 1" :=
  ⟨parseMediaElement_count_mismatch.1 rowNoLinks (by decide),
    parseMediaElement_count_mismatch.2 rowOneCellGoodLinks
      { ID := 123, Name := "Naruto", Category := "1_2",
        Torrent := "/download/123.torrent", Magnet := "magnet:?xt=urn:btih:abc" }
      rfl (by decide)⟩

/-- C7 counterexample: `rowOneCellNoHref` has 1 cell (≠ 8), yet its
extraction error is the missing-href link error, not a count-mismatch
error stating expected versus actual counts. -/
theorem cell_count_mismatch_preempted :
    (findTds rowOneCellNoHref).length = 1 ∧
    (findLinks rowOneCellNoHref).length = 4 ∧
    parseMediaElement rowOneCellNoHref =
      .error "unexpected layout: first link does not have an href" ∧
    "unexpected layout: first link does not have an href" ≠
      "unexpected layout: expected 8 nodes, got 1" :=
  ⟨rfl, rfl, rfl, by decide⟩

/-- C8: `Search` with more than one parameter set fails immediately with
the parameter error — for every HTTP transport and document parser, so no
network request is observable — and with zero parameter sets it behaves
exactly as with the empty/default parameter set. -/
theorem search_parameter_check :
    (∀ search ps g nd, ps.length > 1 →
      Search search ps g nd = .error "only one parameter set accepted") ∧
    (∀ search g nd, Search search ([] : List SearchParameters) g nd =
      Search search [{}] g nd) := by
  constructor
  · intro search ps g nd hps
    unfold Search getOneParameterSet
    rw [if_pos hps]
  · intro search g nd
    rfl

theorem search_parameter_check_witness :
    Search "a" [{}, {}] httpGetStub newDocStub = .error "only one parameter set accepted" ∧
    Search "a" ([] : List SearchParameters) httpGetStub newDocStub =
      Search "a" [{}] httpGetStub newDocStub :=
  ⟨search_parameter_check.1 "a" [{}, {}] httpGetStub newDocStub (by decide),
    search_parameter_check.2 "a" httpGetStub newDocStub⟩

/-- C9: a response with a status outside [200, 300) makes `requestHTML`
fail with the non-OK-status error carrying the numeric code and the status
line, and `Search` wraps it; the conclusion holds for every document
parser `nd`, so the body is never parsed. -/
theorem requestHTML_non2xx (search : String) (p : SearchParameters)
    (g : String → Except String HttpResponse) (nd : String → Except String HNode)
    (u : String) (rep : HttpResponse)
    (hu : urlForParams search p = .ok u)
    (hg : g u = .ok rep)
    (hbad : rep.statusCode < 200 ∨ 300 ≤ rep.statusCode) :
    requestHTML search p g nd =
      .error ("non-OK HTTP status code: " ++ toString rep.statusCode ++ " " ++ rep.status) ∧
    Search search [p] g nd =
      .error ("error getting the nyaa page: " ++
        ("non-OK HTTP status code: " ++ toString rep.statusCode ++ " " ++ rep.status)) := by
  have hreq : requestHTML search p g nd =
      .error ("non-OK HTTP status code: " ++ toString rep.statusCode ++ " " ++ rep.status) := by
    unfold requestHTML
    rw [hu]
    simp only []
    rw [hg]
    simp only []
    rw [if_pos (by rcases hbad with h | h <;> simp [h])]
  refine ⟨hreq, ?_⟩
  unfold Search getOneParameterSet
  simp only [List.length_cons, List.length_nil]
  rw [if_neg (by omega)]
  simp only []
  rw [hreq]

theorem requestHTML_non2xx_witness :
    requestHTML "q" {} httpGet404 newDocStub =
      .error "non-OK HTTP status code: 404 404 Not Found" ∧
    Search "q" [{}] httpGet404 newDocStub =
      .error "error getting the nyaa page: non-OK HTTP status code: 404 404 Not Found" :=
  requestHTML_non2xx "q" {} httpGet404 newDocStub "https://nyaa.si?c=&f=0&o=&q=q&s="
    { statusCode := 404, status := "404 Not Found", body := "<html></html>" }
    rfl rfl (Or.inr (by decide))
